import Mathlib

/-!
Shallow embedding of `battery-osd` (src/src/types.rs, src/src/config.rs,
src/src/battery.rs, src/src/main.rs): the sensor reader
`BatteryInfo::read_from_sysfs`, the classifier `BatteryMonitor::check_battery`
and the pieces of `Config` they consume.  Rust `f64` values are embedded as
`F64` (an exact rational together with the special values `inf`, `negInf`,
`nan`) with IEEE-754 comparison semantics; `u64` timeouts become `Nat`;
filesystem reads become `Option String` arguments (`none` = unreadable file).
-/

namespace BatteryOsd

/-- Embedding of Rust `f64`: finite values are kept exactly as rationals;
the special values infinity, negative infinity and NaN are explicit
constructors.  Comparisons follow IEEE-754: every comparison with `nan`
is false. -/
inductive F64 where
  | finite (q : ℚ)
  | inf
  | negInf
  | nan
deriving DecidableEq, Repr

/-- IEEE-754 `<=` on embedded `f64` values (`nan` compares false to everything). -/
def F64.le : F64 → F64 → Bool
  | F64.nan, _ => false
  | _, F64.nan => false
  | F64.negInf, _ => true
  | _, F64.negInf => false
  | F64.finite a, F64.finite b => decide (a ≤ b)
  | _, F64.inf => true
  | F64.inf, _ => false

/-- IEEE-754 `<` on embedded `f64` values (`nan` compares false to everything). -/
def F64.lt : F64 → F64 → Bool
  | F64.nan, _ => false
  | _, F64.nan => false
  | F64.negInf, F64.negInf => false
  | F64.negInf, _ => true
  | _, F64.negInf => false
  | F64.finite a, F64.finite b => decide (a < b)
  | F64.inf, _ => false
  | F64.finite _, F64.inf => true

/-- IEEE-754 `>=`: `a >= b` is `b <= a`. -/
def F64.ge (a b : F64) : Bool := F64.le b a

/-- IEEE-754 `>`: `a > b` is `b < a`. -/
def F64.gt (a b : F64) : Bool := F64.lt b a

/-- Negation of an embedded `f64` value. -/
def F64.neg : F64 → F64
  | F64.finite q => F64.finite (-q)
  | F64.inf => F64.negInf
  | F64.negInf => F64.inf
  | F64.nan => F64.nan

/-- Largest `i32` value. -/
def i32max : ℤ := 2147483647

/-- Smallest `i32` value. -/
def i32min : ℤ := -2147483648

/-- Embedding of the Rust cast `f64 as i32` (battery.rs line 105): truncation
toward zero, saturating at the `i32` bounds, with `NaN` mapped to 0. -/
def F64.toI32 : F64 → ℤ
  | F64.nan => 0
  | F64.inf => i32max
  | F64.negInf => i32min
  | F64.finite q =>
      let t : ℤ := if 0 ≤ q then ⌊q⌋ else ⌈q⌉
      if t < i32min then i32min else if i32max < t then i32max else t

/-- Embedding of `enum BatteryStatus` from types.rs. -/
inductive BatteryStatus where
  | Charging
  | Discharging
  | Full
  | Unknown
deriving DecidableEq, Repr

/-- Embedding of `struct BatteryInfo` from types.rs. -/
structure BatteryInfo where
  capacity : F64
  status : BatteryStatus
deriving DecidableEq, Repr

/-- Embedding of `struct TimeoutConfig` from config.rs (six `u64` millisecond timeouts). -/
structure TimeoutConfig where
  charging : Nat
  discharging : Nat
  critical : Nat
  low : Nat
  full : Nat
  healthy : Nat
deriving DecidableEq, Repr

/-- Embedding of `struct CommandConfig` from config.rs (six optional shell commands). -/
structure CommandConfig where
  on_charging : Option String
  on_discharging : Option String
  on_critical : Option String
  on_low : Option String
  on_full : Option String
  on_healthy : Option String
deriving DecidableEq, Repr

/-- Embedding of `struct Config` from config.rs restricted to the fields the core reads:
thresholds, commands, timeouts and the disable list.  The rendering-only
fields (`position`, `battery_path`, `poll_interval_secs`) never reach the
classifier logic and are omitted. -/
structure Config where
  critical_threshold : F64
  low_threshold : F64
  healthy_threshold : F64
  commands : CommandConfig
  timeouts : TimeoutConfig
  disable : List String
deriving DecidableEq, Repr

/-- Embedding of `TimeoutConfig::default()` from config.rs: 3000 ms everywhere except
12000 ms for critical and low. -/
def TimeoutConfig.default : TimeoutConfig :=
  { charging := 3000, discharging := 3000, critical := 12000,
    low := 12000, full := 3000, healthy := 3000 }

/-- Embedding of `CommandConfig::default()` from config.rs: no commands configured. -/
def CommandConfig.default : CommandConfig :=
  { on_charging := none, on_discharging := none, on_critical := none,
    on_low := none, on_full := none, on_healthy := none }

/-- Embedding of `Config::default()` from config.rs: thresholds 10 / 20 / 80, default
timeouts and commands, empty disable list. -/
def Config.default : Config :=
  { critical_threshold := F64.finite 10,
    low_threshold := F64.finite 20,
    healthy_threshold := F64.finite 80,
    commands := CommandConfig.default,
    timeouts := TimeoutConfig.default,
    disable := [] }

/-- The mutable monitor state of `BatteryMonitor` (battery.rs lines 34-35):
`last_state: Option<BatteryInfo>` and `last_healthy_notified: bool`,
initialized to `None` / `false` in `BatteryMonitor::new`. -/
structure ClassifierState where
  last_state : Option BatteryInfo
  last_healthy_notified : Bool
deriving DecidableEq, Repr

/-- The initial state built by `BatteryMonitor::new` (battery.rs lines 42-43). -/
def ClassifierState.initial : ClassifierState :=
  { last_state := none, last_healthy_notified := false }

/-- The tuple `check_battery` returns on a shown notification
(battery.rs line 166): icon name, message, level and timeout. -/
structure Decision where
  icon : String
  message : String
  level : String
  timeout : Nat
deriving DecidableEq, Repr

/-- One full outcome of `check_battery` on a successful read: the updated
monitor state, the returned decision (`None` when nothing is shown) and
the command handed to `execute_command` (`none` when `execute_command`
is not reached or the level has no configured command). -/
structure PollResult where
  state : ClassifierState
  decision : Option Decision
  dispatched : Option String
deriving DecidableEq, Repr

/-- Modelled from the spec: the Rust function `str::trim` (standard-library code
outside this repository) — whitespace stripped from both ends. -/
def rustTrim (s : String) : String :=
  ⟨(((s.data.dropWhile Char.isWhitespace).reverse).dropWhile
      Char.isWhitespace).reverse⟩

/-- Modelled from the spec: the Rust function `str::to_lowercase` (standard-library
code outside this repository) — characters mapped to lower case. -/
def rustToLower (s : String) : String :=
  ⟨s.data.map Char.toLower⟩

/-- Embedding of `BatteryMonitor::is_disabled` (battery.rs lines 65-69): the level is
suppressed when it matches an entry of `config.disable` case-insensitively. -/
def is_disabled (config : Config) (level : String) : Bool :=
  config.disable.any fun disabled_level =>
    rustToLower disabled_level == rustToLower level

/-- The local `state_changed` (battery.rs line 78): the status differs from the
status of the previous snapshot. -/
def state_changed (last_info battery_info : BatteryInfo) : Bool :=
  last_info.status != battery_info.status

/-- The local `crossing_threshold` (battery.rs lines 80-82): discharging and the
capacity dropped across the critical or the low threshold since the
previous snapshot. -/
def crossing_threshold (config : Config) (last_info battery_info : BatteryInfo) : Bool :=
  battery_info.status == BatteryStatus.Discharging &&
    ((F64.le battery_info.capacity config.critical_threshold &&
        F64.gt last_info.capacity config.critical_threshold) ||
     (F64.le battery_info.capacity config.low_threshold &&
        F64.gt last_info.capacity config.low_threshold))

/-- The local `crossing_healthy` (battery.rs lines 84-87): charging, the capacity
rose across the healthy threshold, and the healthy notification has not
fired yet this charge cycle. -/
def crossing_healthy (config : Config) (last_info battery_info : BatteryInfo)
    (last_healthy : Bool) : Bool :=
  battery_info.status == BatteryStatus.Charging &&
    F64.ge battery_info.capacity config.healthy_threshold &&
    F64.lt last_info.capacity config.healthy_threshold &&
    !last_healthy

/-- The icon / message / level / command / timeout selection of
`check_battery` (battery.rs lines 105-157), keyed on the current status
and capacity. -/
structure Selection where
  icon : String
  message : String
  level : String
  command : Option String
  timeout : Nat
deriving DecidableEq, Repr

/-- The `match battery_info.status` selection block of `check_battery`
(battery.rs lines 105-157).  The displayed capacity is the `f64 as i32`
truncation of the snapshot capacity. -/
def select (config : Config) (battery_info : BatteryInfo) : Selection :=
  let capacity : ℤ := F64.toI32 battery_info.capacity
  match battery_info.status with
  | BatteryStatus.Charging =>
      if F64.ge battery_info.capacity config.healthy_threshold then
        { icon := "battery-good-charging-symbolic",
          message := "Healthy " ++ toString capacity ++ "%",
          level := "healthy",
          command := config.commands.on_healthy,
          timeout := config.timeouts.healthy }
      else
        { icon := "battery-level-50-charging-symbolic",
          message := "Charging " ++ toString capacity ++ "%",
          level := "charging",
          command := config.commands.on_charging,
          timeout := config.timeouts.charging }
  | BatteryStatus.Discharging =>
      if F64.le battery_info.capacity config.critical_threshold then
        { icon := "battery-level-10-symbolic",
          message := "Critical " ++ toString capacity ++ "%",
          level := "critical",
          command := config.commands.on_critical,
          timeout := config.timeouts.critical }
      else if F64.le battery_info.capacity config.low_threshold then
        { icon := "battery-level-20-symbolic",
          message := "Low " ++ toString capacity ++ "%",
          level := "low",
          command := config.commands.on_low,
          timeout := config.timeouts.low }
      else
        { icon := "battery-good-symbolic",
          message := "Discharging " ++ toString capacity ++ "%",
          level := "normal",
          command := config.commands.on_discharging,
          timeout := config.timeouts.discharging }
  | BatteryStatus.Full =>
      { icon := "battery-full-symbolic",
        message := "Full " ++ toString capacity ++ "%",
        level := "full",
        command := config.commands.on_full,
        timeout := config.timeouts.full }
  | BatteryStatus.Unknown =>
      { icon := "battery-missing-symbolic",
        message := "Battery " ++ toString capacity ++ "%",
        level := "normal",
        command := none,
        timeout := config.timeouts.discharging }

/-- The `should_show` computation of `check_battery` (battery.rs lines
77-100): when a previous snapshot exists, show on a status change, a
downward threshold crossing or a healthy crossing (evaluated against the
healthy flag as it was before the mutations of this poll); on the very first
poll always show. -/
def should_show (config : Config) (battery_info : BatteryInfo)
    (st : ClassifierState) : Bool :=
  match st.last_state with
  | some last_info =>
      state_changed last_info battery_info ||
        crossing_threshold config last_info battery_info ||
        crossing_healthy config last_info battery_info st.last_healthy_notified
  | none => true

/-- The value of `last_healthy_notified` after the two mutations of
`check_battery` (battery.rs lines 89-95): first cleared when the current
status is Discharging, then set when `crossing_healthy` fired, so the
final value is true on a healthy crossing, false on Discharging, and the
old value otherwise.  Both mutations sit inside the `if let Some` branch:
on the very first poll the flag is untouched. -/
def next_healthy (config : Config) (battery_info : BatteryInfo)
    (st : ClassifierState) : Bool :=
  match st.last_state with
  | some last_info =>
      if crossing_healthy config last_info battery_info st.last_healthy_notified then
        true
      else if battery_info.status == BatteryStatus.Discharging then false
      else st.last_healthy_notified
  | none => st.last_healthy_notified

/-- Embedding of `BatteryMonitor::check_battery` after a successful sensor read
(battery.rs lines 74-170): computes `should_show` and the healthy-flag
update from the previous snapshot, unconditionally stores the current
snapshot as the new `last_state`, and if `should_show` holds selects the
notification, suppressing it entirely when its level is disabled. -/
def check_battery (config : Config) (battery_info : BatteryInfo)
    (st : ClassifierState) : PollResult :=
  let newState : ClassifierState :=
    { last_state := some battery_info,
      last_healthy_notified := next_healthy config battery_info st }
  if should_show config battery_info st then
    let sel := select config battery_info
    if is_disabled config sel.level then
      { state := newState, decision := none, dispatched := none }
    else
      { state := newState,
        decision := some { icon := sel.icon, message := sel.message,
                           level := sel.level, timeout := sel.timeout },
        dispatched := sel.command }
  else
    { state := newState, decision := none, dispatched := none }

/-- The `match status_str.trim()` of `BatteryInfo::read_from_sysfs`
(battery.rs lines 21-26): exactly `"Charging"`, `"Discharging"` and
`"Full"` are recognized; everything else becomes `Unknown`. -/
def parseStatus (status_str : String) : BatteryStatus :=
  if rustTrim status_str == "Charging" then BatteryStatus.Charging
  else if rustTrim status_str == "Discharging" then BatteryStatus.Discharging
  else if rustTrim status_str == "Full" then BatteryStatus.Full
  else BatteryStatus.Unknown

/-- Value of a digit string, most significant digit first. -/
def digitsToNat (cs : List Char) : Nat :=
  cs.foldl (fun acc c => acc * 10 + (c.toNat - 48)) 0

/-- Modelled from the spec: the decimal significand accepted by the Rust
standard-library function `str::parse::<f64>` (code outside this repository): a
digit string, optionally followed by a point and a further digit string,
with at least one digit overall (spec section 6: the capacity file holds
an ASCII integer or decimal).  Exponent forms are not modelled. -/
def parseSignificand (cs : List Char) : Option ℚ :=
  let intPart := cs.takeWhile Char.isDigit
  let rest := cs.dropWhile Char.isDigit
  match rest with
  | [] => if intPart.isEmpty then none else some (digitsToNat intPart : ℚ)
  | '.' :: rest2 =>
      let fracPart := rest2.takeWhile Char.isDigit
      let rest3 := rest2.dropWhile Char.isDigit
      if rest3.isEmpty && (!intPart.isEmpty || !fracPart.isEmpty) then
        some (mkRat (digitsToNat (intPart ++ fracPart) : Int)
          ((10 : Nat) ^ fracPart.length))
      else none
  | _ => none

/-- Modelled from the spec: an unsigned value accepted by the Rust
standard-library function `str::parse::<f64>` — the keywords `inf` / `infinity` /
`nan` (case-insensitive) or a decimal significand. -/
def parseUnsigned (cs : List Char) : Option F64 :=
  let lcs := cs.map Char.toLower
  if lcs = "inf".toList then some F64.inf
  else if lcs = "infinity".toList then some F64.inf
  else if lcs = "nan".toList then some F64.nan
  else (parseSignificand cs).map F64.finite

/-- Modelled from the spec: the Rust standard-library function `str::parse::<f64>`
(code outside this repository), restricted to the forms the spec names —
an optional sign followed by a decimal number, infinity or NaN.  The
finite values are kept exactly; no range restriction is applied. -/
def parseF64 (s : String) : Option F64 :=
  match s.toList with
  | '+' :: rest => parseUnsigned rest
  | '-' :: rest => (parseUnsigned rest).map F64.neg
  | cs => parseUnsigned cs

/-- Embedding of `BatteryInfo::read_from_sysfs` (battery.rs lines 10-29) with the two
filesystem reads supplied as arguments (`none` = `fs::read_to_string`
failed): a missing capacity file, an unparseable trimmed capacity and a
missing status file are errors; unrecognized status content becomes
`Unknown` via `parseStatus`. -/
def read_from_sysfs (capacityFile statusFile : Option String) :
    Except String BatteryInfo :=
  match capacityFile with
  | none => Except.error "Failed to read capacity"
  | some capacity_str =>
      match parseF64 (rustTrim capacity_str) with
      | none => Except.error "Failed to parse capacity"
      | some capacity =>
          match statusFile with
          | none => Except.error "Failed to read status"
          | some status_str =>
              Except.ok { capacity := capacity, status := parseStatus status_str }

/-- One poll cycle of `check_battery` (battery.rs lines 71-170) including
the sensor read: a reader error propagates (the `?` on line 72 returns
before the monitor state is touched); on success the classifier runs. -/
def poll_cycle (config : Config) (capacityFile statusFile : Option String)
    (st : ClassifierState) : Except String PollResult :=
  match read_from_sysfs capacityFile statusFile with
  | Except.error e => Except.error e
  | Except.ok battery_info => Except.ok (check_battery config battery_info st)

/-- The monitor state after one poll cycle as the caller in main.rs sees
it: on a reader error the loop logs and continues (main.rs lines 491-493),
so the state is exactly the previous one. -/
def poll_next_state (config : Config) (capacityFile statusFile : Option String)
    (st : ClassifierState) : ClassifierState :=
  match poll_cycle config capacityFile statusFile st with
  | Except.error _ => st
  | Except.ok r => r.state

/-- Edge-trigger scenario: previous snapshot 21% Discharging (spec section 8). -/
def edgeState0 : ClassifierState :=
  { last_state := some ⟨F64.finite 21, BatteryStatus.Discharging⟩,
    last_healthy_notified := false }

/-- Edge-trigger scenario: the poll observing 19% Discharging after 21%. -/
def edgePoll1 : PollResult :=
  check_battery Config.default ⟨F64.finite 19, BatteryStatus.Discharging⟩ edgeState0

/-- Edge-trigger scenario: the immediately following poll observing 19% again. -/
def edgePoll2 : PollResult :=
  check_battery Config.default ⟨F64.finite 19, BatteryStatus.Discharging⟩ edgePoll1.state

/-- Healthy-flag scenario: previous snapshot 79% Charging, flag clear. -/
def healthyState0 : ClassifierState :=
  { last_state := some ⟨F64.finite 79, BatteryStatus.Charging⟩,
    last_healthy_notified := false }

/-- Healthy-flag scenario: Charging poll at 81% after 79%. -/
def healthyPoll1 : PollResult :=
  check_battery Config.default ⟨F64.finite 81, BatteryStatus.Charging⟩ healthyState0

/-- Healthy-flag scenario: subsequent Charging poll at 82%. -/
def healthyPoll2 : PollResult :=
  check_battery Config.default ⟨F64.finite 82, BatteryStatus.Charging⟩ healthyPoll1.state

/-- Healthy-flag scenario: a Discharging poll (at 50%), resetting the flag. -/
def healthyPoll3 : PollResult :=
  check_battery Config.default ⟨F64.finite 50, BatteryStatus.Discharging⟩ healthyPoll2.state

/-- Healthy-flag scenario: Charging poll at 81% after the discharge. -/
def healthyPoll4 : PollResult :=
  check_battery Config.default ⟨F64.finite 81, BatteryStatus.Charging⟩ healthyPoll3.state

/-- Disable-list scenario: default config with `disable=["critical"]` and a
configured critical command. -/
def c6cfg : Config :=
  { Config.default with
      disable := ["critical"],
      commands := { CommandConfig.default with on_critical := some "beep" } }

/-- Disable-list scenario: the previous monitor state, 50% Discharging. -/
def c6state : ClassifierState :=
  { last_state := some ⟨F64.finite 50, BatteryStatus.Discharging⟩,
    last_healthy_notified := false }

/-- IEEE comparisons are mutually exclusive: `a <= b` rules out `b < a`,
for every embedded `f64` value including the specials. -/
theorem F64.le_imp_not_lt : ∀ {a b : F64}, F64.le a b = true → F64.lt b a = false := by
  intro a b h
  cases a <;> cases b <;> simp_all [F64.le, F64.lt]

/-- A value is never simultaneously `<=` and `>` a threshold. -/
theorem F64.not_le_and_gt (a b : F64) : (F64.le a b && F64.gt a b) = false := by
  cases hle : F64.le a b
  · simp
  · simp [F64.gt, F64.le_imp_not_lt hle]

/-- Lemma: `crossing_threshold` never fires when the capacity did not change. -/
theorem crossing_threshold_refl (cfg : Config) (s : BatteryInfo) :
    crossing_threshold cfg s s = false := by
  simp only [crossing_threshold]
  rw [F64.not_le_and_gt, F64.not_le_and_gt]
  simp

/-- Lemma: `crossing_healthy` never fires when the capacity did not change. -/
theorem crossing_healthy_refl (cfg : Config) (s : BatteryInfo) (flag : Bool) :
    crossing_healthy cfg s s flag = false := by
  simp only [crossing_healthy, F64.ge]
  cases hle : F64.le cfg.healthy_threshold s.capacity
  · simp [hle]
  · simp [hle, F64.le_imp_not_lt hle]

/-- The monitor state after `check_battery`: the snapshot is stored
unconditionally and the healthy flag becomes `next_healthy`, regardless of
whether a notification is shown or suppressed. -/
theorem check_battery_state_eq (cfg : Config) (info : BatteryInfo) (st : ClassifierState) :
    (check_battery cfg info st).state =
      { last_state := some info,
        last_healthy_notified := next_healthy cfg info st } := by
  simp only [check_battery]
  split
  · split <;> rfl
  · rfl

/-- The decision of `check_battery` is either nothing or exactly the
selection for the current snapshot. -/
theorem check_battery_decision_eq (cfg : Config) (info : BatteryInfo) (st : ClassifierState) :
    (check_battery cfg info st).decision = none ∨
      (check_battery cfg info st).decision =
        some { icon := (select cfg info).icon, message := (select cfg info).message,
               level := (select cfg info).level, timeout := (select cfg info).timeout } := by
  simp only [check_battery]
  split
  · split
    · exact Or.inl rfl
    · exact Or.inr rfl
  · exact Or.inl rfl

/-- The command handed to `execute_command` is either nothing or exactly
the command of the selection. -/
theorem check_battery_dispatched_eq (cfg : Config) (info : BatteryInfo) (st : ClassifierState) :
    (check_battery cfg info st).dispatched = none ∨
      (check_battery cfg info st).dispatched = (select cfg info).command := by
  simp only [check_battery]
  split
  · split
    · exact Or.inl rfl
    · exact Or.inr rfl
  · exact Or.inl rfl

/-- The selection for an Unknown-status snapshot: level `normal`, message
`Battery {capacity}%`, no command, the discharging timeout. -/
theorem select_of_status_unknown (cfg : Config) (info : BatteryInfo)
    (h : info.status = BatteryStatus.Unknown) :
    select cfg info =
      { icon := "battery-missing-symbolic",
        message := "Battery " ++ toString (F64.toI32 info.capacity) ++ "%",
        level := "normal", command := none,
        timeout := cfg.timeouts.discharging } := by
  unfold select
  rw [h]

/-- C1: threshold crossings are one-directional edge triggers.  For every
pair of consecutive Discharging snapshots, `crossing_threshold` holds iff
current capacity <= critical_threshold < previous capacity or current
capacity <= low_threshold < previous capacity; concretely, with the default
config (low_threshold 20) a Discharging poll at 19% after 21% yields a
decision with level `low`, and an immediately following poll at 19% again
yields no decision. -/
theorem c1_threshold_edge_trigger :
    (∀ (cfg : Config) (prev cur : BatteryInfo),
        prev.status = BatteryStatus.Discharging →
        cur.status = BatteryStatus.Discharging →
        (crossing_threshold cfg prev cur = true ↔
          (F64.le cur.capacity cfg.critical_threshold = true ∧
             F64.lt cfg.critical_threshold prev.capacity = true) ∨
          (F64.le cur.capacity cfg.low_threshold = true ∧
             F64.lt cfg.low_threshold prev.capacity = true))) ∧
    edgePoll1.decision.map Decision.level = some "low" ∧
    edgePoll2.decision = none := by
  refine ⟨?_, ?_, ?_⟩
  · intro cfg prev cur hprev hcur
    simp [crossing_threshold, hcur, F64.gt]
  · decide
  · decide

/-- Witness for C1 at the concrete inputs of the spec: with the default config,
capacity 19 after 21 while Discharging is a threshold crossing. -/
theorem c1_threshold_edge_trigger_witness :
    crossing_threshold Config.default
      ⟨F64.finite 21, BatteryStatus.Discharging⟩
      ⟨F64.finite 19, BatteryStatus.Discharging⟩ = true :=
  (c1_threshold_edge_trigger.1 Config.default
      ⟨F64.finite 21, BatteryStatus.Discharging⟩
      ⟨F64.finite 19, BatteryStatus.Discharging⟩ rfl rfl).mpr
    (Or.inr ⟨by decide, by decide⟩)

/-- C2: the healthy flag is sticky.  Whenever a previous snapshot exists,
the flag after the poll is true when `crossing_healthy` fired, false when
the current status is Discharging, and unchanged otherwise — independent of
whether a notification is shown; concretely, Charging 79% to 81% produces
`healthy` and sets the flag, a further Charging poll at 82% produces
nothing, a Discharging poll clears the flag, and Charging 81% afterwards
produces `healthy` again. -/
theorem c2_healthy_flag_sticky :
    (∀ (cfg : Config) (st : ClassifierState) (prev info : BatteryInfo),
        st.last_state = some prev →
        (check_battery cfg info st).state.last_healthy_notified =
          (if crossing_healthy cfg prev info st.last_healthy_notified then true
           else if info.status == BatteryStatus.Discharging then false
           else st.last_healthy_notified)) ∧
    (healthyPoll1.decision.map Decision.level = some "healthy" ∧
       healthyPoll1.state.last_healthy_notified = true) ∧
    healthyPoll2.decision = none ∧
    healthyPoll3.state.last_healthy_notified = false ∧
    healthyPoll4.decision.map Decision.level = some "healthy" := by
  refine ⟨?_, ⟨?_, ?_⟩, ?_, ?_, ?_⟩
  · intro cfg st prev info h
    rw [check_battery_state_eq]
    simp [next_healthy, h]
  · decide
  · decide
  · decide
  · decide
  · decide

/-- Witness for C2 at concrete inputs: the Charging poll at 81% after the
79% snapshot sets the healthy flag. -/
theorem c2_healthy_flag_sticky_witness :
    (check_battery Config.default ⟨F64.finite 81, BatteryStatus.Charging⟩
        healthyState0).state.last_healthy_notified =
      (if crossing_healthy Config.default ⟨F64.finite 79, BatteryStatus.Charging⟩
            ⟨F64.finite 81, BatteryStatus.Charging⟩ false then true
       else if (BatteryStatus.Charging == BatteryStatus.Discharging) then false
       else false) :=
  c2_healthy_flag_sticky.1 Config.default healthyState0
    ⟨F64.finite 79, BatteryStatus.Charging⟩
    ⟨F64.finite 81, BatteryStatus.Charging⟩ rfl

/-- C3: the first classification with an empty state (no previous snapshot)
yields a decision exactly when the level selected for the snapshot is not
in the disable list of the configuration. -/
theorem c3_first_poll_always_notifies :
    ∀ (cfg : Config) (info : BatteryInfo) (flag : Bool),
      (check_battery cfg info
          { last_state := none, last_healthy_notified := flag }).decision.isSome =
        !is_disabled cfg (select cfg info).level := by
  intro cfg info flag
  simp only [check_battery, should_show]
  by_cases hd : is_disabled cfg (select cfg info).level = true <;> simp [hd]

/-- C4: idempotence of repeated observation — classifying a snapshot again
when it is already the stored previous snapshot returns no decision, for
every configuration and every healthy-flag value. -/
theorem c4_repeat_same_snapshot_no_decision :
    ∀ (cfg : Config) (s : BatteryInfo) (flag : Bool),
      (check_battery cfg s
          { last_state := some s, last_healthy_notified := flag }).decision = none := by
  intro cfg s flag
  simp [check_battery, should_show, state_changed, crossing_threshold_refl,
    crossing_healthy_refl]

/-- C5: the sensor read fails exactly when the capacity file is unreadable,
its trimmed content does not parse as a number, or the status file is
unreadable; unrecognized status content on a successful read becomes
`Unknown` rather than an error; and a poll cycle that fails with a reader
error leaves the monitor state exactly as it was. -/
theorem c5_reader_failure_semantics :
    (∀ (capacityFile statusFile : Option String),
        (∃ e, read_from_sysfs capacityFile statusFile = Except.error e) ↔
          capacityFile = none ∨
          (∃ s, capacityFile = some s ∧ parseF64 (rustTrim s) = none) ∨
          statusFile = none) ∧
    (∀ s : String, rustTrim s ≠ "Charging" → rustTrim s ≠ "Discharging" → rustTrim s ≠ "Full" →
        parseStatus s = BatteryStatus.Unknown) ∧
    (∀ (cfg : Config) (capacityFile statusFile : Option String) (st : ClassifierState),
        (∃ e, read_from_sysfs capacityFile statusFile = Except.error e) →
        poll_next_state cfg capacityFile statusFile st = st) := by
  refine ⟨?_, ?_, ?_⟩
  · intro capacityFile statusFile
    cases capacityFile with
    | none => simp [read_from_sysfs]
    | some s =>
        cases hp : parseF64 (rustTrim s) with
        | none => simp [read_from_sysfs, hp]
        | some v =>
            cases statusFile with
            | none => simp [read_from_sysfs, hp]
            | some t => simp [read_from_sysfs, hp]
  · intro s h1 h2 h3
    simp [parseStatus, h1, h2, h3]
  · intro cfg capacityFile statusFile st h
    obtain ⟨e, he⟩ := h
    simp [poll_next_state, poll_cycle, he]

/-- Witness for C5 at a concrete input: an unreadable capacity file leaves
the initial monitor state untouched. -/
theorem c5_reader_failure_semantics_witness :
    poll_next_state Config.default none (some "Discharging")
      ClassifierState.initial = ClassifierState.initial :=
  c5_reader_failure_semantics.2.2 Config.default none (some "Discharging")
    ClassifierState.initial ⟨"Failed to read capacity", rfl⟩

/-- C6: when the selected level is disabled (case-insensitively), the poll
returns no decision and dispatches no command, while the monitor state is
still updated exactly as it would be with an empty disable list. -/
theorem c6_disabled_level_suppression (cfg : Config) (info : BatteryInfo)
    (st : ClassifierState)
    (hdis : is_disabled cfg (select cfg info).level = true) :
    (check_battery cfg info st).decision = none ∧
    (check_battery cfg info st).dispatched = none ∧
    (check_battery cfg info st).state =
      (check_battery { cfg with disable := [] } info st).state := by
  refine ⟨?_, ?_, ?_⟩
  · simp only [check_battery]
    split
    · simp [hdis]
    · rfl
  · simp only [check_battery]
    split
    · simp [hdis]
    · rfl
  · rw [check_battery_state_eq, check_battery_state_eq]
    rfl

/-- Witness for C6 at a concrete input: with `disable=["critical"]` and a
configured critical command, a drop from 50% to 5% Discharging shows
nothing, runs nothing, and still stores the new snapshot. -/
theorem c6_disabled_level_suppression_witness :
    (check_battery c6cfg ⟨F64.finite 5, BatteryStatus.Discharging⟩
        c6state).decision = none ∧
    (check_battery c6cfg ⟨F64.finite 5, BatteryStatus.Discharging⟩
        c6state).dispatched = none ∧
    (check_battery c6cfg ⟨F64.finite 5, BatteryStatus.Discharging⟩
        c6state).state =
      (check_battery { c6cfg with disable := [] }
          ⟨F64.finite 5, BatteryStatus.Discharging⟩ c6state).state :=
  c6_disabled_level_suppression c6cfg
    ⟨F64.finite 5, BatteryStatus.Discharging⟩ c6state (by decide)

/-- C7: a decision produced for an Unknown-status snapshot has level
`normal` and message `Battery {capacity}%`, no command is dispatched for
such a snapshot even when `on_discharging` is configured, and the reader
maps any trimmed status content other than exactly `Charging`,
`Discharging` or `Full` to `Unknown`. -/
theorem c7_unknown_status_normal :
    (∀ (cfg : Config) (info : BatteryInfo) (st : ClassifierState) (d : Decision),
        info.status = BatteryStatus.Unknown →
        (check_battery cfg info st).decision = some d →
        d.level = "normal" ∧
        d.message = "Battery " ++ toString (F64.toI32 info.capacity) ++ "%") ∧
    (∀ (cfg : Config) (info : BatteryInfo) (st : ClassifierState),
        info.status = BatteryStatus.Unknown →
        (check_battery cfg info st).dispatched = none) ∧
    (∀ s : String, rustTrim s ≠ "Charging" → rustTrim s ≠ "Discharging" → rustTrim s ≠ "Full" →
        parseStatus s = BatteryStatus.Unknown) := by
  refine ⟨?_, ?_, ?_⟩
  · intro cfg info st d hstatus hdec
    rcases check_battery_decision_eq cfg info st with h | h
    · rw [h] at hdec; cases hdec
    · have hd : d = _ := Option.some.inj (hdec.symm.trans h)
      subst hd
      simp [select_of_status_unknown cfg info hstatus]
  · intro cfg info st hstatus
    rcases check_battery_dispatched_eq cfg info st with h | h
    · exact h
    · rw [h, select_of_status_unknown cfg info hstatus]
  · intro s h1 h2 h3
    simp [parseStatus, h1, h2, h3]

/-- Witness for C7 at a concrete input: the first poll of a 50% Unknown
snapshot yields level `normal` and message `Battery 50%`. -/
theorem c7_unknown_status_normal_witness :
    ({ icon := "battery-missing-symbolic", message := "Battery 50%",
       level := "normal", timeout := 3000 } : Decision).level = "normal" ∧
    ({ icon := "battery-missing-symbolic", message := "Battery 50%",
       level := "normal", timeout := 3000 } : Decision).message =
      "Battery " ++ toString (F64.toI32 (F64.finite 50)) ++ "%" :=
  c7_unknown_status_normal.1 Config.default
    ⟨F64.finite 50, BatteryStatus.Unknown⟩ ClassifierState.initial _ rfl (by decide)

/-- C8: displayed capacities are the `f64 as i32` truncation toward zero:
every selected message renders `F64.toI32` of the capacity, which is the
floor for nonnegative in-range values and the ceiling for negative ones,
and capacity 75.9 renders as `75`, not `76`. -/
theorem c8_capacity_truncated :
    (∀ (cfg : Config) (info : BatteryInfo), ∃ p : String,
        (select cfg info).message = p ++ toString (F64.toI32 info.capacity) ++ "%") ∧
    (∀ q : ℚ, 0 ≤ q → q ≤ (i32max : ℚ) → F64.toI32 (F64.finite q) = ⌊q⌋) ∧
    (∀ q : ℚ, q < 0 → (i32min : ℚ) ≤ q → F64.toI32 (F64.finite q) = ⌈q⌉) ∧
    (select Config.default
        ⟨F64.finite (mkRat 759 10), BatteryStatus.Discharging⟩).message =
      "Discharging 75%" := by
  refine ⟨?_, ?_, ?_, ?_⟩
  · intro cfg info
    rcases info with ⟨cap, stat⟩
    cases stat
    · simp only [select]
      split
      · exact ⟨"Healthy ", rfl⟩
      · exact ⟨"Charging ", rfl⟩
    · simp only [select]
      split
      · exact ⟨"Critical ", rfl⟩
      · split
        · exact ⟨"Low ", rfl⟩
        · exact ⟨"Discharging ", rfl⟩
    · exact ⟨"Full ", rfl⟩
    · exact ⟨"Battery ", rfl⟩
  · intro q h0 hmax
    have h1 : ¬ ⌊q⌋ < i32min := by
      have hq : (0 : ℤ) ≤ ⌊q⌋ := Int.floor_nonneg.mpr h0
      unfold i32min
      omega
    have h2 : ¬ i32max < ⌊q⌋ := by
      have hq := Int.floor_mono hmax
      rw [Int.floor_intCast] at hq
      omega
    simp [F64.toI32, h0, h1, h2]
  · intro q hneg hmin
    have h0 : ¬ (0 : ℚ) ≤ q := not_le.mpr hneg
    have h1 : ¬ ⌈q⌉ < i32min := by
      have hq := Int.ceil_mono hmin
      rw [Int.ceil_intCast] at hq
      omega
    have h2 : ¬ i32max < ⌈q⌉ := by
      have hq : ⌈q⌉ ≤ (0 : ℤ) := Int.ceil_le.mpr (by exact_mod_cast hneg.le)
      unfold i32max
      omega
    simp [F64.toI32, h0, h1, h2]
  · decide

/-- Witness for C8 at the concrete input of the spec: 75.9 truncates to the
floor of 75.9, which is 75 and not 76. -/
theorem c8_capacity_truncated_witness :
    F64.toI32 (F64.finite (mkRat 759 10)) = ⌊mkRat 759 10⌋ ∧
    ⌊mkRat 759 10⌋ = 75 :=
  ⟨c8_capacity_truncated.2.1 (mkRat 759 10) (by decide) (by decide), by decide⟩

/-- C9: the reader applies no range validation — any capacity content whose
trimmed text parses succeeds unmodified, including values below 0, above
100, infinity and NaN. -/
theorem c9_no_range_validation :
    (∀ (capacity_str status_str : String) (v : F64),
        parseF64 (rustTrim capacity_str) = some v →
        read_from_sysfs (some capacity_str) (some status_str) =
          Except.ok { capacity := v, status := parseStatus status_str }) ∧
    parseF64 "-5" = some (F64.finite (-5)) ∧
    parseF64 "150.5" = some (F64.finite (mkRat 301 2)) ∧
    parseF64 "inf" = some F64.inf ∧
    parseF64 "NaN" = some F64.nan := by
  refine ⟨?_, ?_, ?_, ?_, ?_⟩
  · intro cs ss v hp
    simp [read_from_sysfs, hp]
  · decide
  · decide
  · decide
  · decide

/-- Witness for C9 at a concrete input: capacity content `150.5` (above
100) is read back unmodified. -/
theorem c9_no_range_validation_witness :
    read_from_sysfs (some "150.5") (some "Discharging") =
      Except.ok { capacity := F64.finite (mkRat 301 2),
                  status := parseStatus "Discharging" } :=
  c9_no_range_validation.1 "150.5" "Discharging" (F64.finite (mkRat 301 2)) (by decide)

/-- C10: every decision produced for an Unknown-status snapshot carries the
configured discharging timeout. -/
theorem c10_unknown_uses_discharging_timeout :
    ∀ (cfg : Config) (info : BatteryInfo) (st : ClassifierState) (d : Decision),
      info.status = BatteryStatus.Unknown →
      (check_battery cfg info st).decision = some d →
      d.timeout = cfg.timeouts.discharging := by
  intro cfg info st d hstatus hdec
  rcases check_battery_decision_eq cfg info st with h | h
  · rw [h] at hdec; cases hdec
  · have hd : d = _ := Option.some.inj (hdec.symm.trans h)
    subst hd
    simp [select_of_status_unknown cfg info hstatus]

/-- Witness for C10 at a concrete input: the first poll of a 50% Unknown
snapshot carries the default discharging timeout of 3000 ms. -/
theorem c10_unknown_uses_discharging_timeout_witness :
    ({ icon := "battery-missing-symbolic", message := "Battery 50%",
       level := "normal", timeout := 3000 } : Decision).timeout =
      Config.default.timeouts.discharging :=
  c10_unknown_uses_discharging_timeout Config.default
    ⟨F64.finite 50, BatteryStatus.Unknown⟩ ClassifierState.initial _ rfl (by decide)

end BatteryOsd
